import Mathlib

/-!
# Verification of the Automated-Telegram-Audiobook-Bot upload pipeline

Shallow embedding of the retry/backoff loops, the chunked upload loop,
the ingestion watcher, the processing ledger and the size-limit checks of
`src/telegram_uploader.py`, `src/main.py` and `src/audiobook_uploader.py`,
together with proofs and refutations of the specification's claims.
-/

namespace AudiobookBot

/-- Error classification seen by the retry loops: a rate-limit error
(Pyrogram `FloodWait` / PTB `RetryAfter`, carrying the server wait in
seconds) or a transient network/timeout error
(`NetworkError`/`TimedOut`/`TimeoutError`). -/
inductive UpErr where
  | rateLimited (wait : Nat)
  | transient
  deriving DecidableEq, Repr

/-- `TelegramUploader.__init__`: `self.max_retries = 3`
(src/telegram_uploader.py line 46). -/
def maxRetries : Nat := 3

/-- `TelegramUploader.__init__`: `self.retry_delay = 30`
(src/telegram_uploader.py line 47). -/
def retryDelay : Nat := 30

/-- The exponential backoff of `upload_audio`
(src/telegram_uploader.py line 1214):
`wait_time = min(1800, 60 * (2 ** (retry_count - 1)))`. -/
def backoffDelay (a : Nat) : Nat := min 1800 (60 * 2 ^ (a - 1))

/-- The exponential backoff of the non-chunked `upload_file` variant
(src/telegram_uploader.py line 240):
`wait_time = min(1800, self.retry_delay * (2 ** (retry_count - 1)))`
with `self.retry_delay = 30`. -/
def fileBackoffDelay (a : Nat) : Nat := min 1800 (retryDelay * 2 ^ (a - 1))

/-- One failure handled inside `upload_audio`'s retry loop
(src/telegram_uploader.py lines 1204-1224).  Input: current
`retry_count` and the error; output: the new `retry_count` and
`some delay` if the loop sleeps `delay` seconds and continues, or
`none` if it re-raises.  Note that the `except RetryAfter` branch
(line 1205) executes `retry_count += 1` before sleeping `e.retry_after`,
and the `except (NetworkError, TimedOut)` branch (line 1211) increments
and then only sleeps when `retry_count < self.max_retries`. -/
def audioStep (rc : Nat) : UpErr → Nat × Option Nat
  | .rateLimited w => (rc + 1, some w)
  | .transient =>
      let rc' := rc + 1
      (rc', if rc' < maxRetries then some (backoffDelay rc') else none)

/-- One failure handled inside `upload_file`'s retry loop
(src/telegram_uploader.py lines 228-250, identically at lines 573-595).
The `except FloodWait` branch sleeps `e.value` and continues without
touching `retry_count`; the transient branch increments it and backs
off with base `self.retry_delay`. -/
def fileStep (rc : Nat) : UpErr → Nat × Option Nat
  | .rateLimited w => (rc, some w)
  | .transient =>
      let rc' := rc + 1
      (rc', if rc' < maxRetries then some (fileBackoffDelay rc') else none)

/-- Run `upload_audio`'s `while retry_count < self.max_retries` loop
(src/telegram_uploader.py line 1131) over a list of successive attempt
failures, recording for each handled failure the pair
`(sleep seconds, retry_count after handling)`.  The trace stops when an
error is re-raised or the loop guard fails. -/
def audioDelays (rc : Nat) : List UpErr → List (Nat × Nat)
  | [] => []
  | e :: es =>
      if rc < maxRetries then
        match audioStep rc e with
        | (rc', some w) => (w, rc') :: audioDelays rc' es
        | (_, none) => []
      else []

/-- The same failure trace for `upload_file`'s loop
(src/telegram_uploader.py lines 553-595). -/
def fileDelays (rc : Nat) : List UpErr → List (Nat × Nat)
  | [] => []
  | e :: es =>
      if rc < maxRetries then
        match fileStep rc e with
        | (rc', some w) => (w, rc') :: fileDelays rc' es
        | (_, none) => []
      else []

/-- The chunk-reading loop of `upload_audio` (src/telegram_uploader.py
lines 1141-1145): `chunk = await file.read(chunk_size)` repeated from
the start of the file, stopping when the read returns no bytes.  The
file is a list of bytes; `fuel` bounds the number of loop iterations
and is instantiated with the file length, which suffices because every
iteration consumes at least one byte when `0 < c`. -/
def readChunks (c : Nat) : Nat → List Nat → List (List Nat)
  | 0, _ => []
  | _, [] => []
  | fuel + 1, x :: xs =>
      if c = 0 then []
      else (x :: xs).take c :: readChunks c fuel (xs.drop (c - 1))

/-- Splitting a whole file into chunks of size `c`, as the read loop of
`upload_audio` does on first attempt (src/telegram_uploader.py lines
1141-1145). -/
def chunks (c : Nat) (file : List Nat) : List (List Nat) :=
  readChunks c file.length file

/-- The sizes of the successive reads of the chunk loop, in terms of the
remaining byte count only: each `file.read(chunk_size)` returns
`min c n` bytes when `n` bytes remain. -/
def sizesAux (c : Nat) : Nat → Nat → List Nat
  | 0, _ => []
  | fuel + 1, n =>
      if n = 0 ∨ c = 0 then [] else min c n :: sizesAux c fuel (n - c)

/-- Chunk sizes produced by splitting an `n`-byte file with chunk size
`c`. -/
def chunkSizes (c n : Nat) : List Nat := sizesAux c n n

/-- Modelled from the spec: `upload_audio` calls
`uploader.init_upload`/`uploader.verify_chunk` on a `ChunkedUploader`
(src/telegram_uploader.py lines 1115-1116 and 1147), but the
`ChunkedUploader` class itself is absent from the sources.  Spec §3
("Chunk ... plus its precomputed verification digest") and §4.1
describe one verification digest per chunk, computed once at start;
digests are modelled as the chunk contents themselves (an injective
digest). -/
def chunkDigests (c : Nat) (file : List Nat) : List (List Nat) :=
  chunks c file

/-- Modelled from the spec: `ChunkedUploader.verify_chunk` compares the
bytes just read against the chunk's precomputed digest
(src/telegram_uploader.py line 1147; spec §4.1 digest verification). -/
def verifyChunk (data digest : List Nat) : Bool := data = digest

/-- One attempt of `upload_audio`'s inner chunk loop as entered on a
retry (src/telegram_uploader.py lines 1141-1164): `state.current_chunk`
is preserved from the failed attempt (`cur`), but
`aiofiles.open(file_path, 'rb')` reopens the file at position 0 and no
seek is performed, so reads are sequential from byte 0.  Records the
`(chunk index, data read for it)` pairs; `fuel` bounds the iterations. -/
def attemptReads (c numChunks : Nat) (file : List Nat) :
    Nat → Nat → Nat → List (Nat × List Nat)
  | 0, _, _ => []
  | fuel + 1, pos, cur =>
      if cur < numChunks then
        let chunk := (file.drop pos).take c
        if chunk = [] then []
        else (cur, chunk) :: attemptReads c numChunks file fuel (pos + c) (cur + 1)
      else []

/-- The reads performed by a retried attempt that starts with
`state.current_chunk = cur` and file position 0. -/
def retryAttemptReads (c : Nat) (file : List Nat) (numChunks cur : Nat) :
    List (Nat × List Nat) :=
  attemptReads c numChunks file numChunks 0 cur

theorem readChunks_join {c : Nat} (hc : 0 < c) :
    ∀ (fuel : Nat) (l : List Nat), l.length ≤ fuel →
      (readChunks c fuel l).flatten = l := by
  intro fuel
  induction fuel with
  | zero =>
      intro l hl
      have : l = [] := List.length_eq_zero.mp (Nat.le_zero.mp hl)
      simp [this, readChunks]
  | succ fuel ih =>
      intro l hl
      match l with
      | [] => simp [readChunks]
      | x :: xs =>
          have hxs : (xs.drop (c - 1)).length ≤ fuel := by
            simp only [List.length_drop]
            simp only [List.length_cons] at hl
            omega
          simp only [readChunks, if_neg (Nat.pos_iff_ne_zero.mp hc), List.flatten_cons,
            ih _ hxs]
          have hc1 : c = (c - 1) + 1 := by omega
          rw [hc1, List.take_succ_cons]
          simp [List.take_append_drop]

theorem readChunks_map_length {c : Nat} (hc : 0 < c) :
    ∀ (fuel : Nat) (l : List Nat), l.length ≤ fuel →
      (readChunks c fuel l).map List.length = sizesAux c fuel l.length := by
  intro fuel
  induction fuel with
  | zero =>
      intro l hl
      simp [readChunks, sizesAux]
  | succ fuel ih =>
      intro l hl
      match l with
      | [] => simp [readChunks, sizesAux]
      | x :: xs =>
          have hxs : (xs.drop (c - 1)).length ≤ fuel := by
            simp only [List.length_drop]
            simp only [List.length_cons] at hl
            omega
          have hlen : (xs.drop (c - 1)).length = xs.length + 1 - c := by
            simp only [List.length_drop]; omega
          simp only [readChunks, if_neg (Nat.pos_iff_ne_zero.mp hc), List.map_cons,
            ih _ hxs, sizesAux, List.length_cons, List.length_take, hlen]
          rw [if_neg (by omega)]

theorem sizesAux_length {c : Nat} (hc : 0 < c) :
    ∀ (fuel n : Nat), n ≤ fuel → (sizesAux c fuel n).length = (n + c - 1) / c := by
  intro fuel
  induction fuel with
  | zero =>
      intro n hn
      have hn0 : n = 0 := Nat.le_zero.mp hn
      subst hn0
      simp [sizesAux, Nat.div_eq_of_lt (by omega : c - 1 < c)]
  | succ fuel ih =>
      intro n hn
      rcases Nat.eq_zero_or_pos n with hn0 | hnpos
      · subst hn0
        simp [sizesAux, Nat.div_eq_of_lt (by omega : c - 1 < c)]
      · have hrec : n - c ≤ fuel := by omega
        have hcond : ¬ (n = 0 ∨ c = 0) := by omega
        simp only [sizesAux, if_neg hcond, List.length_cons, ih _ hrec]
        rcases Nat.le_total c n with hcn | hnc
        · have h1 : n - c + c - 1 = n - 1 := by omega
          have h2 : n + c - 1 = (n - 1) + c := by omega
          rw [h1, h2, Nat.add_div_right _ hc]
        · have h1 : n - c = 0 := by omega
          rw [h1]
          have h2 : (c - 1) / c = 0 := Nat.div_eq_of_lt (by omega)
          simp only [Nat.zero_add, h2]
          exact (Nat.div_eq_of_lt_le (by omega) (by omega)).symm

theorem sizesAux_bounds {c : Nat} (hc : 0 < c) :
    ∀ (fuel n : Nat), ∀ s ∈ sizesAux c fuel n, 0 < s ∧ s ≤ c := by
  intro fuel
  induction fuel with
  | zero => intro n s hs; simp [sizesAux] at hs
  | succ fuel ih =>
      intro n s hs
      by_cases hn : n = 0 ∨ c = 0
      · simp [sizesAux, hn] at hs
      · simp only [sizesAux, if_neg hn, List.mem_cons] at hs
        rcases hs with hs | hs
        · subst hs
          constructor
          · have : ¬ n = 0 := by tauto
            omega
          · exact Nat.min_le_left _ _
        · exact ih _ _ hs

theorem sizesAux_zero {c : Nat} : ∀ fuel, sizesAux c fuel 0 = [] := by
  intro fuel; cases fuel <;> simp [sizesAux]

theorem sizesAux_ne_nil {c : Nat} (hc : 0 < c) {fuel n : Nat} (hn : 0 < n)
    (hfuel : 0 < fuel) : sizesAux c fuel n ≠ [] := by
  match fuel with
  | f + 1 => simp [sizesAux, if_neg (by omega : ¬ (n = 0 ∨ c = 0))]

theorem sizesAux_dropLast {c : Nat} (hc : 0 < c) :
    ∀ (fuel n : Nat), n ≤ fuel → ∀ s ∈ (sizesAux c fuel n).dropLast, s = c := by
  intro fuel
  induction fuel with
  | zero => intro n hn s hs; simp [sizesAux] at hs
  | succ fuel ih =>
      intro n hn s hs
      rcases Nat.eq_zero_or_pos n with hn0 | hnpos
      · subst hn0; simp [sizesAux] at hs
      · have hcond : ¬ (n = 0 ∨ c = 0) := by omega
        simp only [sizesAux, if_neg hcond] at hs
        rcases Nat.lt_or_ge c n with hcn | hnc
        · have hsub : 0 < n - c := by omega
          have hfsub : n - c ≤ fuel := by omega
          have hfpos : 0 < fuel := by omega
          have hrest : sizesAux c fuel (n - c) ≠ [] :=
            sizesAux_ne_nil hc hsub hfpos
          rw [List.dropLast_cons_of_ne_nil hrest, List.mem_cons] at hs
          rcases hs with hs | hs
          · rw [hs]; exact Nat.min_eq_left (by omega)
          · exact ih _ hfsub _ hs
        · have h1 : n - c = 0 := by omega
          rw [h1, sizesAux_zero] at hs
          simp at hs

theorem sizesAux_sum {c : Nat} (hc : 0 < c) :
    ∀ (fuel n : Nat), n ≤ fuel → (sizesAux c fuel n).sum = n := by
  intro fuel
  induction fuel with
  | zero =>
      intro n hn
      have : n = 0 := by omega
      subst this; simp [sizesAux]
  | succ fuel ih =>
      intro n hn
      rcases Nat.eq_zero_or_pos n with hn0 | hnpos
      · subst hn0; simp [sizesAux]
      · simp only [sizesAux, if_neg (by omega : ¬ (n = 0 ∨ c = 0)), List.sum_cons,
          ih _ (by omega : n - c ≤ fuel)]
        omega

/-- The ledger of paths currently being processed:
`AudiobookHandler.__init__` sets `self.processing = set()` (src/main.py
line 140); it is consulted and mutated only by the handler's single
event loop. -/
abbrev Ledger := List String

/-- The entry guard of `AudiobookHandler.async_process_file`
(src/main.py lines 151-154): a path already in `self.processing` is
dropped (the handler returns at once, starting no session); otherwise
the path is added and exactly one processing session begins.  Returns
the ledger after the guard and the number of sessions started. -/
def acceptEvent (s : Ledger) (p : String) : Ledger × Nat :=
  if p ∈ s then (s, 0) else (p :: s, 1)

/-- The `finally` block of `async_process_file` (src/main.py lines
199-201): the path is removed from `self.processing` when processing
finishes, whether it succeeded, failed, or was skipped. -/
def finishProcessing (s : Ledger) (p : String) : Ledger :=
  s.erase p

/-- A burst of `Created` events handled by the entry guard while no
processing has finished yet: fold `acceptEvent` over the event paths,
accumulating the number of sessions started. -/
def acceptEvents (s : Ledger) : List String → Ledger × Nat
  | [] => (s, 0)
  | p :: ps =>
      let r := acceptEvent s p
      let r' := acceptEvents r.1 ps
      (r'.1, r.2 + r'.2)

/-- `AudiobookHandler.is_file_ready` (src/main.py lines 145-148): a
file is ready exactly when its `path + '.ready'` marker exists. -/
def isFileReady (markerPresent : Bool) : Bool := markerPresent

/-- `path + '.ready'` (src/main.py lines 147 and 237). -/
def readyMarkerPath (p : String) : String := p ++ ".ready"

/-- `time.sleep(10)` between the two size samples of
`AudiobookHandler.on_created` (src/main.py line 229). -/
def settleSeconds : Nat := 10

/-- Outcome of the `.m4b` branch of `AudiobookHandler.on_created`. -/
structure WatchResult where
  createdFile : Option String
  markerPresentAfter : Bool
  reachedReady : Bool
  deriving DecidableEq, Repr

/-- The stabilization check of `AudiobookHandler.on_created` for a newly
created `.m4b` file (src/main.py lines 226-250): sample the size, sleep
the settle interval, sample again; if the sizes differ, return without
creating a marker (the file never reaches the ready dispatch this
cycle); if they match, create the `path + '.ready'` marker unless it
already exists (idempotent), then fall through to the `is_file_ready`
dispatch.  The wall-clock sleep itself is not modelled. -/
def onCreatedStabilize (p : String) (initialSize finalSize : Nat)
    (markerAlready : Bool) : WatchResult :=
  if initialSize ≠ finalSize then
    { createdFile := none, markerPresentAfter := markerAlready,
      reachedReady := false }
  else
    { createdFile := if markerAlready then none else some (readyMarkerPath p),
      markerPresentAfter := true, reachedReady := true }

/-- Levels used by the logger calls in src/main.py and
src/audiobook_uploader.py. -/
inductive LogLevel where
  | info
  | warning
  | error
  deriving DecidableEq, Repr

/-- Observable outcome of the code that runs after a successful remote
transfer. -/
structure PostUploadResult where
  uploadReportedSuccess : Bool
  raisedToCaller : Bool
  fileMoved : Bool
  markerPresent : Bool
  earlyReturn : Bool
  logs : List (LogLevel × String)
  deriving DecidableEq, Repr

/-- The post-upload block of `AudiobookHandler.async_process_file`
(src/main.py lines 172-201), entered once `upload_to_telegram` returned
success: log the success, rename the file into `processed/` (lines
181-187; on `OSError`, `logger.error` and return early), then remove
the `.ready` marker (lines 189-196; on failure, `logger.warning`).
The surrounding `try/except` (lines 197-198) swallows every exception,
so nothing propagates to the caller.  Parameters: whether the rename
succeeds, whether the marker file exists, whether its removal
succeeds.  Log messages keep the fixed prefix of the formatted string. -/
def asyncProcessAfterUpload (moveOk markerExists removeOk : Bool) :
    PostUploadResult :=
  if moveOk then
    if markerExists then
      if removeOk then
        { uploadReportedSuccess := true, raisedToCaller := false,
          fileMoved := true, markerPresent := false, earlyReturn := false,
          logs := [(LogLevel.info, "Successfully uploaded"),
                   (LogLevel.info, "Moved file to processed directory"),
                   (LogLevel.info, "Removed .ready marker file")] }
      else
        { uploadReportedSuccess := true, raisedToCaller := false,
          fileMoved := true, markerPresent := true, earlyReturn := false,
          logs := [(LogLevel.info, "Successfully uploaded"),
                   (LogLevel.info, "Moved file to processed directory"),
                   (LogLevel.warning, "Failed to remove .ready marker file")] }
    else
      { uploadReportedSuccess := true, raisedToCaller := false,
        fileMoved := true, markerPresent := false, earlyReturn := false,
        logs := [(LogLevel.info, "Successfully uploaded"),
                 (LogLevel.info, "Moved file to processed directory")] }
  else
    { uploadReportedSuccess := true, raisedToCaller := false,
      fileMoved := false, markerPresent := markerExists, earlyReturn := true,
      logs := [(LogLevel.info, "Successfully uploaded"),
               (LogLevel.error, "Failed to move file to processed directory")] }

/-- The post-upload block of `main` in src/audiobook_uploader.py (lines
134-156), entered when `upload_audio` returned success: log the
success, then `shutil.move` the file and its `.ready` marker into
`processed/`; a failure of either move is caught, `logger.error`-logged
(line 154) and not re-raised, so `main` still finishes normally. -/
def uploaderMainAfterUpload (moveOk markerExists : Bool) : PostUploadResult :=
  if moveOk then
    { uploadReportedSuccess := true, raisedToCaller := false,
      fileMoved := true, markerPresent := false, earlyReturn := false,
      logs := if markerExists then
          [(LogLevel.info, "Successfully uploaded"),
           (LogLevel.info, "Moved file to processed directory"),
           (LogLevel.info, "Moved .ready file to processed directory")]
        else
          [(LogLevel.info, "Successfully uploaded"),
           (LogLevel.info, "Moved file to processed directory")] }
  else
    { uploadReportedSuccess := true, raisedToCaller := false,
      fileMoved := false, markerPresent := markerExists, earlyReturn := false,
      logs := [(LogLevel.info, "Successfully uploaded"),
               (LogLevel.error, "Failed to move file to processed directory")] }

/-- File/network actions that `upload_to_telegram` can perform. -/
inductive NetAction where
  | openFile
  | sendDocument
  deriving DecidableEq, Repr

/-- `MAX_FILE_SIZE = 4 * 1024 * 1024 * 1024` (src/main.py line 17). -/
def MAX_FILE_SIZE : Nat := 4 * 1024 * 1024 * 1024

/-- `upload_to_telegram` (src/main.py lines 44-64): stat the file, and
if `file_size > MAX_FILE_SIZE` raise a descriptive `ClickException`
before opening the file or touching the network; otherwise open the
file and `bot.send_document` it.  Returns the actions performed and the
error, if any (the formatted size prefix of the message is elided). -/
def uploadToTelegram (fileSize : Nat) : List NetAction × Option String :=
  if MAX_FILE_SIZE < fileSize then
    ([], some "File size exceeds Telegram 4GB limit")
  else
    ([NetAction.openFile, NetAction.sendDocument], none)

/-- The size guard of `async_process_file` (src/main.py lines 167-169),
checked before the `Bot` is even constructed (line 171): `True` when
the file is rejected for exceeding `MAX_FILE_SIZE`. -/
def asyncProcessSizeRejects (fileSize : Nat) : Bool :=
  MAX_FILE_SIZE < fileSize

end AudiobookBot

namespace AudiobookBot

/-- C1, counterexample.  In `upload_audio` a `RetryAfter` (rate-limit)
error does increment `retry_count` (src/telegram_uploader.py line 1205),
so the scenario "RateLimited(wait=15s) then Transient" does not give a
first retry at counter 0 and a second retry after 60s at counter 1:
it gives counter 1 after the rate-limit wait, and a 120-second second
delay at counter 2. -/
theorem c1_rateLimited_increments_in_upload_audio :
    audioDelays 0 [UpErr.rateLimited 15, UpErr.transient] = [(15, 1), (120, 2)] ∧
    audioDelays 0 [UpErr.rateLimited 15, UpErr.transient] ≠ [(15, 0), (60, 1)] := by
  constructor
  · rfl
  · decide

/-- C1, amended.  In `upload_file` a rate-limit error never increments
the retry counter and a transient error always does; in `upload_audio`
both error kinds increment it, so a `RateLimited(wait=15s)` error
followed by a `Transient` error sleeps 15s leaving the counter at 1 and
then sleeps 120s at attempt 2. -/
theorem c1_retry_counter_behaviour :
    (∀ rc w, (fileStep rc (UpErr.rateLimited w)).1 = rc) ∧
    (∀ rc, (fileStep rc UpErr.transient).1 = rc + 1) ∧
    (∀ rc w, (audioStep rc (UpErr.rateLimited w)).1 = rc + 1) ∧
    (∀ rc, (audioStep rc UpErr.transient).1 = rc + 1) ∧
    audioDelays 0 [UpErr.rateLimited 15, UpErr.transient] = [(15, 1), (120, 2)] := by
  refine ⟨fun rc w => rfl, fun rc => rfl, fun rc w => rfl, fun rc => rfl, rfl⟩

/-- C2, code bug.  On a retried attempt `upload_audio` keeps
`state.current_chunk` (here 1, after chunk 0 of the 2-chunk file
`[0,1,2,3]` with chunk size 2 was acknowledged before a transient
failure), but `aiofiles.open` reopens the file at position 0 and the
loop never seeks, so the data read for chunk index 1 is `[0, 1]`
(bytes `[0, 2)`), not the byte range `[2, 3]` starting at
`1 * chunkSize`; verifying it against chunk 1's digest fails, so the
upload cannot resume from the last acknowledged chunk. -/
theorem c2_retry_reads_from_byte_zero :
    retryAttemptReads 2 [0, 1, 2, 3] (chunks 2 [0, 1, 2, 3]).length 1
      = [(1, [0, 1])] ∧
    (([0, 1, 2, 3] : List Nat).drop (1 * 2)).take 2 = [2, 3] ∧
    verifyChunk [0, 1] ((chunkDigests 2 [0, 1, 2, 3]).getD 1 []) = false := by
  decide

/-- C4: for `0 < c ≤ N`, the read loop splits an `N`-byte file into
exactly `⌈N/c⌉ = (N + c - 1) / c` chunks, every chunk except possibly
the last has exactly `c` bytes, every chunk is non-empty and at most
`c` bytes, and concatenating the chunks in order reproduces the file;
for `N = 100 MiB` and `c = 8 MiB` this gives 12 full chunks plus one
4 MiB chunk, 13 chunks in all, with cumulative size 104857600. -/
theorem c4_chunk_round_trip (c : Nat) (file : List Nat) (hc : 0 < c)
    (_hcf : c ≤ file.length) :
    (chunks c file).length = (file.length + c - 1) / c ∧
    (∀ ch ∈ (chunks c file).dropLast, ch.length = c) ∧
    (∀ ch ∈ chunks c file, 0 < ch.length ∧ ch.length ≤ c) ∧
    (chunks c file).flatten = file ∧
    chunkSizes 8388608 104857600 = List.replicate 12 8388608 ++ [4194304] ∧
    (chunkSizes 8388608 104857600).length = 13 ∧
    (chunkSizes 8388608 104857600).sum = 104857600 := by
  have hmap := readChunks_map_length hc file.length file (le_refl _)
  refine ⟨?_, ?_, ?_, ?_, by decide, by decide, by decide⟩
  · have hlen : (chunks c file).length = (sizesAux c file.length file.length).length := by
      rw [chunks, ← hmap, List.length_map]
    rw [hlen, sizesAux_length hc _ _ (le_refl _)]
  · intro ch hch
    have hmem : ch.length ∈ (chunks c file).dropLast.map List.length :=
      List.mem_map_of_mem _ hch
    rw [List.map_dropLast, chunks, hmap] at hmem
    exact sizesAux_dropLast hc _ _ (le_refl _) _ hmem
  · intro ch hch
    have hmem : ch.length ∈ (chunks c file).map List.length :=
      List.mem_map_of_mem _ hch
    rw [chunks, hmap] at hmem
    exact sizesAux_bounds hc _ _ _ hmem
  · exact readChunks_join hc file.length file (le_refl _)

/-- Witness for `c4_chunk_round_trip` at `c = 2`,
`file = [10, 11, 12, 13, 14]`. -/
theorem c4_chunk_round_trip_witness :
    (chunks 2 [10, 11, 12, 13, 14]).flatten = [10, 11, 12, 13, 14] :=
  (c4_chunk_round_trip 2 [10, 11, 12, 13, 14] (by decide) (by decide)).2.2.2.1

/-- C3, counterexample.  With `self.max_retries = 3`, the third
consecutive transient failure re-raises instead of sleeping
(src/telegram_uploader.py lines 1212 and 1222-1224), so the observed
delays are 60s and 120s only, never 240s. -/
theorem c3_third_transient_raises :
    audioDelays 0 [UpErr.transient, UpErr.transient, UpErr.transient]
      = [(60, 1), (120, 2)] ∧
    (audioDelays 0 [UpErr.transient, UpErr.transient, UpErr.transient]).map Prod.fst
      ≠ [60, 120, 240] := by
  constructor
  · rfl
  · decide

/-- C3, amended.  For all attempts `a ≥ 1`, `upload_audio`'s transient
backoff is `min(1800, 60 * 2^(a-1))`, non-decreasing in `a`, and equal
to the 1800s ceiling from `a = 6` on; the non-chunked `upload_file`
uses base `self.retry_delay = 30` instead; and with `max_retries = 3`
three consecutive transient failures sleep 60s then 120s and the third
aborts the upload with no 240s delay. -/
theorem c3_backoff_formula (a : Nat) (ha : 1 ≤ a) :
    backoffDelay a = min 1800 (60 * 2 ^ (a - 1)) ∧
    backoffDelay a ≤ backoffDelay (a + 1) ∧
    (6 ≤ a → backoffDelay a = 1800) ∧
    fileBackoffDelay a = min 1800 (30 * 2 ^ (a - 1)) ∧
    audioDelays 0 [UpErr.transient, UpErr.transient, UpErr.transient]
      = [(60, 1), (120, 2)] := by
  refine ⟨rfl, ?_, ?_, rfl, rfl⟩
  · apply min_le_min (le_refl 1800)
    have h2 : (2 : Nat) ^ (a - 1) ≤ 2 ^ (a + 1 - 1) :=
      Nat.pow_le_pow_right (by omega) (by omega)
    exact Nat.mul_le_mul_left 60 h2
  · intro h6
    have h2 : (2 : Nat) ^ 5 ≤ 2 ^ (a - 1) :=
      Nat.pow_le_pow_right (by omega) (by omega)
    have : 1800 ≤ 60 * 2 ^ (a - 1) := by
      calc (1800 : Nat) ≤ 60 * 2 ^ 5 := by norm_num
        _ ≤ 60 * 2 ^ (a - 1) := Nat.mul_le_mul_left 60 h2
    simpa [backoffDelay] using Nat.min_eq_left this

/-- Witness for `c3_backoff_formula` at `a = 3`. -/
theorem c3_backoff_formula_witness :
    backoffDelay 3 = min 1800 (60 * 2 ^ 2) ∧
    backoffDelay 3 ≤ backoffDelay 4 ∧
    (6 ≤ 3 → backoffDelay 3 = 1800) ∧
    fileBackoffDelay 3 = min 1800 (30 * 2 ^ 2) ∧
    audioDelays 0 [UpErr.transient, UpErr.transient, UpErr.transient]
      = [(60, 1), (120, 2)] :=
  c3_backoff_formula 3 (by omega)

theorem acceptEvents_of_mem {p : String} :
    ∀ (m : Nat) (t : Ledger), p ∈ t → acceptEvents t (List.replicate m p) = (t, 0) := by
  intro m
  induction m with
  | zero => intro t ht; rfl
  | succ m ih =>
      intro t ht
      simp only [List.replicate_succ, acceptEvents, acceptEvent, if_pos ht, ih t ht]

/-- C5: a path present in the processing ledger is rejected by the
entry guard without change, an absent path is inserted and starts
exactly one session, the `finally` block removes exactly that path when
processing finishes, and any burst of duplicate `Created` events for
the same path while it is in the ledger starts exactly one session. -/
theorem c5_single_flight (s : Ledger) (p : String) (n : Nat) (hp : p ∉ s) :
    (∀ t : Ledger, p ∈ t → acceptEvent t p = (t, 0)) ∧
    acceptEvent s p = (p :: s, 1) ∧
    p ∈ (acceptEvent s p).1 ∧
    finishProcessing (acceptEvent s p).1 p = s ∧
    p ∉ finishProcessing (acceptEvent s p).1 p ∧
    (acceptEvents s (List.replicate (n + 1) p)).2 = 1 := by
  have hacc : acceptEvent s p = (p :: s, 1) := if_neg hp
  refine ⟨fun t ht => if_pos ht, hacc, ?_, ?_, ?_, ?_⟩
  · rw [hacc]; exact List.mem_cons_self p s
  · rw [hacc]; exact List.erase_cons_head p s
  · rw [hacc]
    simpa [finishProcessing, List.erase_cons_head] using hp
  · have hmem : p ∈ p :: s := List.mem_cons_self p s
    simp only [List.replicate_succ, acceptEvents, hacc,
      acceptEvents_of_mem n (p :: s) hmem]

/-- Witness for `c5_single_flight` with an empty ledger, path `"a"` and
two duplicate events. -/
theorem c5_single_flight_witness :
    (∀ t : Ledger, "a" ∈ t → acceptEvent t "a" = (t, 0)) ∧
    acceptEvent [] "a" = (["a"], 1) ∧
    "a" ∈ (acceptEvent [] "a").1 ∧
    finishProcessing (acceptEvent [] "a").1 "a" = [] ∧
    "a" ∉ finishProcessing (acceptEvent [] "a").1 "a" ∧
    (acceptEvents [] (List.replicate (1 + 1) "a")).2 = 1 :=
  c5_single_flight [] "a" 1 (by simp)

/-- C6: when the two size samples taken `settleSeconds` apart differ,
`on_created` creates no marker and never reaches the ready dispatch in
that cycle; when they match, the marker at `path + ".ready"` exists
afterwards, and its creation is idempotent — it is written only when
not already present. -/
theorem c6_stabilization (p : String) (i f : Nat) (m : Bool) :
    settleSeconds = 10 ∧
    (i ≠ f → onCreatedStabilize p i f m =
      { createdFile := none, markerPresentAfter := m, reachedReady := false }) ∧
    (i = f → (onCreatedStabilize p i f m).markerPresentAfter = true ∧
      (onCreatedStabilize p i f m).reachedReady = true ∧
      (onCreatedStabilize p i f m).createdFile =
        if m then none else some (p ++ ".ready")) := by
  refine ⟨rfl, fun hne => ?_, fun heq => ?_⟩
  · simp [onCreatedStabilize, hne]
  · simp [onCreatedStabilize, heq, readyMarkerPath]

/-- Witness for `c6_stabilization`: sizes 1000 then 1500 with no
marker. -/
theorem c6_stabilization_witness :
    onCreatedStabilize "book.m4b" 1000 1500 false =
      { createdFile := none, markerPresentAfter := false, reachedReady := false } :=
  (c6_stabilization "book.m4b" 1000 1500 false).2.1 (by decide)

/-- C7, counterexample.  When the post-upload rename fails, the
archival failure is logged at `error` level (src/main.py line 186 and
src/audiobook_uploader.py line 154), and no `warning`-level entry is
produced in that run — the claim's "only logged as a warning" does not
hold. -/
theorem c7_archival_failure_logged_as_error :
    (asyncProcessAfterUpload false true true).logs =
      [(LogLevel.info, "Successfully uploaded"),
       (LogLevel.error, "Failed to move file to processed directory")] ∧
    (uploaderMainAfterUpload false true).logs =
      [(LogLevel.info, "Successfully uploaded"),
       (LogLevel.error, "Failed to move file to processed directory")] := by
  decide

/-- C7, amended.  When archival fails after the remote transfer
completed, the overall outcome is still "upload succeeded": the success
is reported, no error reaches the caller, and the archival failure is
only logged — at `error` level, not as a warning. -/
theorem c7_archival_failure_nonfatal (me ro : Bool) :
    (asyncProcessAfterUpload false me ro).uploadReportedSuccess = true ∧
    (asyncProcessAfterUpload false me ro).raisedToCaller = false ∧
    (LogLevel.error, "Failed to move file to processed directory")
      ∈ (asyncProcessAfterUpload false me ro).logs ∧
    (uploaderMainAfterUpload false me).uploadReportedSuccess = true ∧
    (uploaderMainAfterUpload false me).raisedToCaller = false ∧
    (LogLevel.error, "Failed to move file to processed directory")
      ∈ (uploaderMainAfterUpload false me).logs := by
  refine ⟨rfl, rfl, ?_, rfl, rfl, ?_⟩
  · simp [asyncProcessAfterUpload]
  · simp [uploaderMainAfterUpload]

/-- C8: a file larger than the configured maximum is rejected by
`upload_to_telegram` with a descriptive size-exceeded error before any
file or network action — no bytes are sent and no status message is
transmitted first — and the watcher's own pre-upload guard rejects it
before the bot is even constructed. -/
theorem c8_size_rejected_before_network (n : Nat) (h : MAX_FILE_SIZE < n) :
    (uploadToTelegram n).2 = some "File size exceeds Telegram 4GB limit" ∧
    (uploadToTelegram n).1 = [] ∧
    NetAction.sendDocument ∉ (uploadToTelegram n).1 ∧
    asyncProcessSizeRejects n = true := by
  have h1 : (uploadToTelegram n) = ([], some "File size exceeds Telegram 4GB limit") :=
    if_pos h
  refine ⟨by rw [h1], by rw [h1], by rw [h1]; simp, ?_⟩
  · simp [asyncProcessSizeRejects, h]

/-- Witness for `c8_size_rejected_before_network` at one byte over the
4 GiB limit. -/
theorem c8_size_rejected_before_network_witness :
    (uploadToTelegram 4294967297).2 = some "File size exceeds Telegram 4GB limit" ∧
    (uploadToTelegram 4294967297).1 = [] ∧
    NetAction.sendDocument ∉ (uploadToTelegram 4294967297).1 ∧
    asyncProcessSizeRejects 4294967297 = true :=
  c8_size_rejected_before_network 4294967297 (by decide)

/-- C10: the size guard is strict — `MAX_FILE_SIZE` is exactly
`4 * 1024^3` bytes, every file of at most that size passes
`upload_to_telegram`'s guard (a file of exactly 4 GiB is accepted and
proceeds to the send), and only strictly larger files are rejected. -/
theorem c10_size_check_strict (n : Nat) (h : n ≤ MAX_FILE_SIZE) :
    MAX_FILE_SIZE = 4 * 1024 * 1024 * 1024 ∧
    (uploadToTelegram n).2 = none ∧
    (uploadToTelegram MAX_FILE_SIZE).2 = none ∧
    NetAction.sendDocument ∈ (uploadToTelegram MAX_FILE_SIZE).1 ∧
    (∀ m, MAX_FILE_SIZE < m → (uploadToTelegram m).2.isSome = true) := by
  refine ⟨rfl, ?_, by decide, by decide, fun m hm => ?_⟩
  · simp [uploadToTelegram, Nat.not_lt.mpr h]
  · simp [uploadToTelegram, hm]

/-- Witness for `c10_size_check_strict` at exactly 4 GiB. -/
theorem c10_size_check_strict_witness :
    (uploadToTelegram 4294967296).2 = none :=
  (c10_size_check_strict 4294967296 (by decide)).2.1

/-- C9: when the post-upload rename into `processed/` fails, the
handler returns early, the `.ready` marker is never removed and the
media file stays at its original path, so after a restart
`is_file_ready` still authorizes reprocessing of a file whose upload
already succeeded. -/
theorem c9_failed_move_leaves_marker (ro : Bool) :
    (asyncProcessAfterUpload false true ro).earlyReturn = true ∧
    (asyncProcessAfterUpload false true ro).markerPresent = true ∧
    (asyncProcessAfterUpload false true ro).fileMoved = false ∧
    isFileReady (asyncProcessAfterUpload false true ro).markerPresent = true ∧
    (asyncProcessAfterUpload false true ro).uploadReportedSuccess = true := by
  exact ⟨rfl, rfl, rfl, rfl, rfl⟩

end AudiobookBot
